import Mathlib

/-!
Verification of the copycat backend's crawler and batch-orchestration core.

The Go source is shallowly embedded: pure string/JSON manipulation is
translated to executable Lean functions; the stateful per-URL pipeline and the
batch orchestrator are modelled as pure functions of the outcomes of their
external calls (database writes, HTTP fetches, remote model calls), with the
counter increments they issue recorded as an explicit operation trace.
-/

namespace Copycat

/-! ## String helpers (Go `strings` package operations used by the core)

The embedding works over the character list of a `String` with self-contained
helpers, so every definition reduces in the kernel. All inputs relevant here
are ASCII apart from the two CJK unit characters, for which the Go and Lean
treatments coincide. -/

/-- Helper: `charsContain needle haystack` decides whether `needle` occurs as a
contiguous run inside `haystack` (the semantics of Go `strings.Contains`). -/
def charsContain (needle : List Char) : List Char → Bool
  | [] => needle.isEmpty
  | c :: rest => needle.isPrefixOf (c :: rest) || charsContain needle rest

/-- Go `strings.Contains s substr`. -/
def strContains (s substr : String) : Bool :=
  charsContain substr.toList s.toList

/-- Go `strings.ToLower`. Go lowercases all of Unicode; `Char.toLower` handles
the ASCII range, which covers every URL and domain string involved. -/
def strToLower (s : String) : String :=
  ⟨s.toList.map Char.toLower⟩

/-- Go `strings.TrimSpace`: drop leading and trailing whitespace. Go trims all
Unicode space; `Char.isWhitespace` covers the ASCII whitespace that can occur
in interaction-count strings. -/
def strTrim (s : String) : String :=
  ⟨((s.toList.dropWhile Char.isWhitespace).reverse.dropWhile Char.isWhitespace).reverse⟩

/-- Go `strings.ReplaceAll s pat ""` for a single-character pattern `pat` (the
only use in the source is removing the unit characters 万 and 千): removes
every occurrence of the character. -/
def removeAllChar (s : String) (c : Char) : String :=
  ⟨s.toList.filter (fun x => x ≠ c)⟩

/-! ## Platform detection and crawler registry (internal/core/crawler/crawler.go) -/

/-- Go `crawler.Platform` (a Go string type with three named constants). -/
inductive Platform where
  | xiaohongshu
  | wechat
  | unknown
deriving DecidableEq

/-- The underlying string of a `Platform` value, as printed by `%s`. -/
def Platform.goString : Platform → String
  | .xiaohongshu => "xiaohongshu"
  | .wechat => "wechat"
  | .unknown => "unknown"

/-- Go `CrawlerManager.detectPlatform`: lower-case the URL and test the known
domain substrings in the source's fixed order. -/
def detectPlatform (url : String) : Platform :=
  let u := strToLower url
  if strContains u "xiaohongshu.com" || strContains u "xhslink.com" then
    .xiaohongshu
  else if strContains u "mp.weixin.qq.com" then
    .wechat
  else
    .unknown

/-- The registration map built by `NewCrawlerManager`: only the xiaohongshu
crawler is registered at construction. -/
def newCrawlerManagerRegistered : Platform → Bool
  | .xiaohongshu => true
  | _ => false

end Copycat

namespace Copycat

/-! ## Crawl data model (internal/core/crawler/types.go)

The two `time.Time` fields of `NoteContent` (publish time, crawl time) are not
modelled: no verified code path reads them. -/

/-- Go `crawler.Video`. -/
structure Video where
  url : String := ""
  duration : Int := 0
  width : Int := 0
  height : Int := 0
deriving DecidableEq

/-- Go `crawler.NoteContent`. The Go field `Type` is named `noteType` here
(`type` is reserved in Lean); the four interaction counters are Go `int`. -/
structure NoteContent where
  noteID : String := ""
  title : String := ""
  content : String := ""
  noteType : String := ""
  coverURL : String := ""
  authorID : String := ""
  authorName : String := ""
  authorAvatar : String := ""
  images : List String := []
  video : Option Video := none
  tags : List String := []
  likeCount : Int := 0
  commentCount : Int := 0
  collectCount : Int := 0
  shareCount : Int := 0
  sourceURL : String := ""
deriving DecidableEq

/-- Go `crawler.CrawlResult`. -/
structure CrawlResult where
  success : Bool := false
  platform : Platform := .unknown
  content : Option NoteContent := none
  error : String := ""
deriving DecidableEq

/-- The observable behaviour of `CrawlerManager.Crawl` before any platform
crawler runs: either a result returned locally (without invoking any crawler,
hence without any network traffic) or a dispatch to the crawler registered for
the detected platform. -/
inductive ManagerCrawlStep where
  | localResult (r : CrawlResult)
  | dispatch (p : Platform)
deriving DecidableEq

/-- Go `CrawlerManager.Crawl`: detect the platform, fail locally when it is
unknown or has no registered crawler, otherwise dispatch. -/
def managerCrawl (registered : Platform → Bool) (url : String) : ManagerCrawlStep :=
  let platform := detectPlatform url
  if platform = .unknown then
    .localResult { success := false, platform := .unknown, error := "unsupported platform" }
  else if registered platform then
    .dispatch platform
  else
    .localResult { success := false, platform := platform,
                   error := "no crawler registered for platform: " ++ platform.goString }

end Copycat

namespace Copycat

/-! ## Interaction-count parsing (internal/core/crawler/xhs_crawler.go, parseCount) -/

/-- Value of a digit character. -/
def digitVal (c : Char) : ℕ := c.toNat - 48

/-- Natural number denoted by a digit string. -/
def digitsToNat (ds : List Char) : ℕ :=
  ds.foldl (fun a c => 10 * a + digitVal c) 0

/-- The number a scan of `%f` produced, kept as the exact fraction
`n / d` with `d` a positive power of ten (unreduced, so that every
operation on it is kernel-computable). This stands for the `float64` the Go
scan yields; on interaction-count numerals the `float64` rounding agrees with
the exact value. -/
structure ScanNum where
  n : Int
  d : ℕ
deriving DecidableEq

/-- The rational value of a scanned numeral. -/
def ScanNum.val (q : ScanNum) : ℚ := (q.n : ℚ) / (q.d : ℚ)

/-- Fold a decimal exponent into the fraction. -/
def ScanNum.applyExp (q : ScanNum) (e : Int) : ScanNum :=
  if 0 ≤ e then { q with n := q.n * (10 : Int) ^ e.toNat }
  else { q with d := q.d * 10 ^ (-e).toNat }

/-- Consume an optional leading sign, as the Go scanner's `accept(sign)`. -/
def scanSign : List Char → Int × List Char
  | '+' :: r => (1, r)
  | '-' :: r => (-1, r)
  | cs => (1, cs)

/-- The exponent tail of the scan: an optional sign and at least one digit,
folded into the mantissa; a bare exponent marker invalidates the numeral. -/
def scanExponent (mantissa : ScanNum) (r : List Char) : Option ScanNum :=
  let esigned := scanSign r
  let edigits := esigned.2.takeWhile Char.isDigit
  if edigits.isEmpty then none
  else some (mantissa.applyExp (esigned.1 * digitsToNat edigits))

/-- Models `fmt.Sscanf(s, "%f", &num)`, restricted to plain decimal numerals:
optional sign, integer digits, optional fractional part, optional decimal
exponent. The Go scanner additionally accepts `inf`, `nan`, hexadecimal
floats and digit-group underscores, none of which arise in interaction-count
strings. Returns `none` when the leading token is not a valid numeral, in
which case Go leaves the destination variable at `0`; trailing non-numeric
text after a valid numeral is ignored, as `parseCount` ignores the `Sscanf`
error. -/
def goScanFloat (s : String) : Option ScanNum :=
  let signed := scanSign s.toList
  let intSplit := signed.2.span Char.isDigit
  let fracSplit := match intSplit.2 with
    | '.' :: r => r.span Char.isDigit
    | _ => ([], intSplit.2)
  if intSplit.1.isEmpty && fracSplit.1.isEmpty then
    none
  else
    let mantissa : ScanNum :=
      { n := signed.1 * (digitsToNat (intSplit.1 ++ fracSplit.1) : Int),
        d := 10 ^ fracSplit.1.length }
    match fracSplit.2 with
    | 'e' :: r => scanExponent mantissa r
    | 'E' :: r => scanExponent mantissa r
    | _ => some mantissa

/-- Go's `float64` → `int` conversion truncates toward zero; on a rational this
is truncating division of the numerator by the denominator. -/
def ratTrunc (q : ℚ) : Int := q.num.tdiv (q.den : Int)

/-- Go `XHSCrawler.parseCount`: trim whitespace; an empty string is 0; a 万 suffix
multiplies by 10000 and a 千 suffix by 1000, the unit character being removed
before the numeric parse; parse the remainder as a float and truncate to an
integer, a failed parse leaving the number at 0. The multiplication
`num * multiplier` and the truncating conversion are computed on the exact
fraction: `(n / d) * m` truncated toward zero is `(n * m).tdiv d`. -/
def parseCount (s : String) : Int :=
  let t := strTrim s
  if t = "" then 0
  else
    let stage :=
      if strContains t "万" then ((10000 : Int), removeAllChar t '万')
      else if strContains t "千" then ((1000 : Int), removeAllChar t '千')
      else ((1 : Int), t)
    let num := (goScanFloat stage.2).getD { n := 0, d := 1 }
    (num.n * stage.1).tdiv (num.d : Int)

end Copycat

namespace Copycat

/-! ## Content extraction (internal/core/crawler/xhs_crawler.go)

The embedded-state strategy decodes a JSON object (Go
`json.Unmarshal` into `map[string]interface{}`) and walks it with type
assertions. JSON values are modelled by `JValue`; a decoded object is its
association list (duplicate-free, as produced by `json.Unmarshal`). Go
iterates `noteDetailMap` in unspecified map order; the embedding iterates the
field list in order, which coincides on every input with at most one matching
entry. -/

/-- A decoded JSON value, as Go's `encoding/json` produces into
`interface{}`: numbers decode to `float64`, modelled as rationals. -/
inductive JValue where
  | null
  | bool (b : Bool)
  | num (q : ℚ)
  | str (s : String)
  | arr (elems : List JValue)
  | obj (fields : List (String × JValue))

/-- A decoded JSON object (`map[string]interface{}`). -/
abbrev JObj := List (String × JValue)

/-- Map indexing `m[k]` on a decoded object. -/
def jLookup (m : JObj) (k : String) : Option JValue := m.lookup k

/-- Go type assertion `.(string)`: succeeds exactly on a string value. -/
def asStr : Option JValue → Option String
  | some (.str s) => some s
  | _ => none

/-- Go type assertion `.(map[string]interface{})`. -/
def asObj : Option JValue → Option JObj
  | some (.obj fields) => some fields
  | _ => none

/-- Go type assertion `.([]interface{})`. -/
def asArr : Option JValue → Option (List JValue)
  | some (.arr elems) => some elems
  | _ => none

/-- Go type assertion `.(float64)`. -/
def asNum : Option JValue → Option ℚ
  | some (.num q) => some q
  | _ => none

/-- The loop of `findNoteData` over `noteDetailMap`: the first entry that is an
object with an object-valued `note` field yields that inner note. -/
def firstInnerNote : JObj → Option JObj
  | [] => none
  | (_, v) :: rest =>
    match v with
    | .obj noteMap =>
      match asObj (jLookup noteMap "note") with
      | some noteObj => some noteObj
      | none => firstInnerNote rest
    | _ => firstInnerNote rest

/-- Go `XHSCrawler.findNoteData`: follow `note.noteDetailMap.<dynamic id>.note`
when present, falling back to the `note` object itself. -/
def findNoteData (data : JObj) : Option JObj :=
  match asObj (jLookup data "note") with
  | some note =>
    match asObj (jLookup note "noteDetailMap") with
    | some noteDetail =>
      match firstInnerNote noteDetail with
      | some noteObj => some noteObj
      | none => some note
    | none => some note
  | none => none

/-- The video-descriptor part of `extractNoteFields` (runs only when the note
type is "video"): probe `media.stream.h264[0].masterUrl`, fall back to a plain
`url` field, and failing that use `firstFrameUrl` as a synthetic cover; attach
the descriptor only when a video URL or a cover URL ended up set. -/
def extractVideoFields (video : JObj) (content : NoteContent) : NoteContent :=
  let videoInfo : Video := {}
  let videoInfo :=
    match asObj (jLookup video "media") with
    | some media =>
      match asObj (jLookup media "stream") with
      | some stream =>
        match asArr (jLookup stream "h264") with
        | some (first :: _) =>
          match first with
          | .obj firstStream =>
            match asStr (jLookup firstStream "masterUrl") with
            | some masterUrl => { videoInfo with url := masterUrl }
            | none => videoInfo
          | _ => videoInfo
        | _ => videoInfo
      | none => videoInfo
    | none => videoInfo
  let fallback :=
    if videoInfo.url = "" then
      match asStr (jLookup video "url") with
      | some u => ({ videoInfo with url := u }, content)
      | none =>
        match asStr (jLookup video "firstFrameUrl") with
        | some f => (videoInfo, { content with coverURL := f })
        | none => (videoInfo, content)
    else (videoInfo, content)
  let videoInfo := fallback.1
  let content := fallback.2
  let videoInfo :=
    match asNum (jLookup video "duration") with
    | some d => { videoInfo with duration := ratTrunc d }
    | none => videoInfo
  let videoInfo :=
    match asNum (jLookup video "width") with
    | some w => { videoInfo with width := ratTrunc w }
    | none => videoInfo
  let videoInfo :=
    match asNum (jLookup video "height") with
    | some h => { videoInfo with height := ratTrunc h }
    | none => videoInfo
  if videoInfo.url ≠ "" ∨ content.coverURL ≠ "" then
    { content with video := some videoInfo }
  else content

/-- Go `XHSCrawler.extractNoteFields`: copy each optionally-present field of the
note object into the content record, leaving the record untouched where a
field is missing or has the wrong dynamic type. -/
def extractNoteFields (data : JObj) (content : NoteContent) : NoteContent :=
  let content :=
    match asStr (jLookup data "title") with
    | some title => { content with title := title }
    | none => content
  let content :=
    match asStr (jLookup data "desc") with
    | some desc => { content with content := desc }
    | none => content
  let content :=
    match asStr (jLookup data "type") with
    | some noteType => { content with noteType := noteType }
    | none => content
  let content :=
    match asArr (jLookup data "imageList") with
    | some imageList =>
      imageList.foldl (fun c img =>
        match img with
        | .obj imgMap =>
          match asStr (jLookup imgMap "urlDefault") with
          | some urlDefault => { c with images := c.images ++ [urlDefault] }
          | none =>
            match asStr (jLookup imgMap "url") with
            | some url => { c with images := c.images ++ [url] }
            | none => c
        | _ => c) content
    | none => content
  let content :=
    match asArr (jLookup data "tagList") with
    | some tagList =>
      tagList.foldl (fun c tag =>
        match tag with
        | .obj tagMap =>
          match asStr (jLookup tagMap "name") with
          | some name => { c with tags := c.tags ++ [name] }
          | none => c
        | _ => c) content
    | none => content
  let content :=
    match asObj (jLookup data "user") with
    | some user =>
      let content :=
        match asStr (jLookup user "nickname") with
        | some nickname => { content with authorName := nickname }
        | none => content
      let content :=
        match asStr (jLookup user "userId") with
        | some userId => { content with authorID := userId }
        | none => content
      match asStr (jLookup user "avatar") with
      | some avatar => { content with authorAvatar := avatar }
      | none => content
    | none => content
  let content :=
    match asObj (jLookup data "interactInfo") with
    | some interactInfo =>
      let content :=
        match asStr (jLookup interactInfo "likedCount") with
        | some likedCount => { content with likeCount := parseCount likedCount }
        | none => content
      let content :=
        match asStr (jLookup interactInfo "collectedCount") with
        | some collectedCount => { content with collectCount := parseCount collectedCount }
        | none => content
      let content :=
        match asStr (jLookup interactInfo "commentCount") with
        | some commentCount => { content with commentCount := parseCount commentCount }
        | none => content
      match asStr (jLookup interactInfo "shareCount") with
      | some shareCount => { content with shareCount := parseCount shareCount }
      | none => content
    | none => content
  let content :=
    match asObj (jLookup data "cover") with
    | some cover =>
      match asStr (jLookup cover "urlDefault") with
      | some urlDefault => { content with coverURL := urlDefault }
      | none =>
        match asStr (jLookup cover "url") with
        | some url => { content with coverURL := url }
        | none => content
    | none => content
  if content.noteType = "video" then
    match asObj (jLookup data "video") with
    | some video => extractVideoFields video content
    | none => content
  else content

/-- Abstraction of the raw page markup: for each regular-expression probe the
Go code performs on the HTML string, the result that probe would produce.
`initialState` is the JSON object captured by the
`window.__INITIAL_STATE__` pattern and decoded after the `undefined → null`
rewrite (`none` when the pattern does not match, the captured text does not
parse, or the value is not a JSON object — in each of those cases
`extractFromJSON` returns an error before touching the record).
`ogTitle`/`ogDescription`/`ogImage` are the captures of the three meta-tag
patterns (`none` when a pattern has no match); the regex character class
`[^"]+` makes every real capture non-empty, expressed by `Markup.WellFormed`. -/
structure Markup where
  initialState : Option JObj := none
  ogTitle : Option String := none
  ogDescription : Option String := none
  ogImage : Option String := none

/-- Meta-tag captures come from `[^"]+` groups and are therefore non-empty. -/
def Markup.WellFormed (m : Markup) : Prop :=
  m.ogTitle ≠ some "" ∧ m.ogDescription ≠ some "" ∧ m.ogImage ≠ some ""

instance (m : Markup) : Decidable m.WellFormed := by
  unfold Markup.WellFormed; infer_instance

/-- Go `XHSCrawler.extractFromJSON`: fail when no parseable embedded state is
present (the record untouched); otherwise copy the located note's fields into
the record, or leave it untouched when no note object is found. -/
def extractFromJSON (html : Markup) (content : NoteContent) : Except String NoteContent :=
  match html.initialState with
  | none => .error "no initial state found"
  | some data =>
    match findNoteData data with
    | some noteData => .ok (extractNoteFields noteData content)
    | none => .ok content

/-- Go `XHSCrawler.extractFromHTML`: write the `og:title` capture over the title,
the `og:description` capture over the body, and append the `og:image` capture
to the image list; each probe that has no match leaves its field untouched.
The Go function always returns a nil error. -/
def extractFromHTML (html : Markup) (content : NoteContent) : NoteContent :=
  let content :=
    match html.ogTitle with
    | some t => { content with title := t }
    | none => content
  let content :=
    match html.ogDescription with
    | some d => { content with content := d }
    | none => content
  match html.ogImage with
  | some i => { content with images := content.images ++ [i] }
  | none => content

/-- The fresh record `parseContent` starts from. -/
def initialNoteContent (noteID sourceURL : String) : NoteContent :=
  { noteID := noteID, sourceURL := sourceURL, images := [], tags := [] }

/-- The tail of `parseContent` after the embedded-state strategy failed to
produce a body: run the metadata-tag strategy over the same record, return it
when it now has a body, fail when title and body are both still empty, and
otherwise return the record as is. -/
def parseContentFallback (html : Markup) (content : NoteContent) : Except String NoteContent :=
  let c := extractFromHTML html content
  if c.content ≠ "" then .ok c
  else if c.title = "" ∧ c.content = "" then .error "failed to extract content from page"
  else .ok c

/-- Go `XHSCrawler.parseContent`: try the embedded-state strategy; return its
record as soon as it produced a non-empty body; otherwise continue into the
metadata-tag fallback over the record in its current state (which still
carries any fields the embedded-state strategy populated). -/
def parseContent (html : Markup) (noteID sourceURL : String) : Except String NoteContent :=
  match extractFromJSON html (initialNoteContent noteID sourceURL) with
  | .ok c =>
    if c.content ≠ "" then .ok c
    else parseContentFallback html c
  | .error _ => parseContentFallback html (initialNoteContent noteID sourceURL)

/-- The record after both strategies have run over it in order, without
`parseContent`'s early return — the state against which the final
both-empty check is expressed. -/
def contentAfterBothStrategies (html : Markup) (noteID sourceURL : String) : NoteContent :=
  match extractFromJSON html (initialNoteContent noteID sourceURL) with
  | .ok c => extractFromHTML html c
  | .error _ => extractFromHTML html (initialNoteContent noteID sourceURL)

end Copycat

namespace Copycat

/-! ## Analysis results and user settings (internal/core/llm, internal/model)

The analysis payloads are produced by remote model calls and are opaque to the
orchestration logic verified here; their structures carry the fields the Go
types declare (video-analysis-only optional fields of `llm.AnalysisResult`,
which the batch pipeline never reads or merges, are omitted). -/

/-- Go `llm.EmotionAnalysis`. -/
structure EmotionAnalysis where
  primary : String := ""
  intensity : ℚ := 0
  tags : List String := []
deriving DecidableEq

/-- Go `llm.StructureItem`. -/
structure StructureItem where
  title : String := ""
  description : String := ""
deriving DecidableEq

/-- Go `llm.TitleAnalysis`. -/
structure TitleAnalysis where
  original : String := ""
  hooks : List String := []
  techniques : List String := []
  score : ℚ := 0
  scoreReason : String := ""
deriving DecidableEq

/-- Go `llm.AnalysisResult`, restricted to the six fields the batch pipeline
merges into the persisted analysis (`emotion`, `structure`, `keywords`,
`title_analysis`, `tone`, `word_count`). -/
structure AnalysisResult where
  titleAnalysis : Option TitleAnalysis := none
  emotion : EmotionAnalysis := {}
  structureItems : List StructureItem := []
  keywords : List String := []
  tone : String := ""
  wordCount : Int := 0
deriving DecidableEq

/-- Go `llm.ImageAnalysisItem`. -/
structure ImageAnalysisItem where
  index : Int := 0
  composition : String := ""
  technique : String := ""
  highlight : String := ""
  colorTone : String := ""
  mood : String := ""
  imagePrompt : String := ""
deriving DecidableEq

/-- Go `llm.ImageAnalysisResult`. -/
structure ImageAnalysisResult where
  images : List ImageAnalysisItem := []
  overallStyle : String := ""
  visualStrategy : String := ""
deriving DecidableEq

/-- Go `model.UserSettings`, restricted to the text- and image-analysis LLM
configuration the batch pipeline reads. -/
structure UserSettings where
  llmProvider : String := ""
  llmApiKey : String := ""
  llmModel : String := ""
  llmBaseURL : String := ""
  imageLLMProvider : String := ""
  imageLLMApiKey : String := ""
  imageLLMModel : String := ""
  imageLLMBaseURL : String := ""
deriving DecidableEq

/-! ## The per-item pipeline (processSingleURL in the batch handler) -/

/-- The values `processSingleURL` stores in the project's raw-content column,
modelled structurally rather than as marshalled JSON text: the initial
placeholder ("正在爬取内容..."), the crawl-failure marker ("爬取失败"), and
the serialized crawl result. -/
inductive SourceContent where
  | placeholder
  | crawlFailed
  | crawled (title content : String) (images : List String)
deriving DecidableEq

/-- The merged analysis object persisted in step 6: the six text-analysis
fields, plus the image analysis exactly when one was obtained. -/
structure MergedAnalysis where
  text : AnalysisResult
  imageAnalysis : Option ImageAnalysisResult := none
deriving DecidableEq

/-- Go `model.Project`, restricted to the fields the batch pipeline writes. -/
structure Project where
  sourceURL : String := ""
  sourceContent : SourceContent := .placeholder
  status : String := "draft"
  analysisResult : Option MergedAnalysis := none
deriving DecidableEq

/-- Outcomes of the external calls one `processSingleURL` invocation makes,
fixed up front so the pipeline body is a pure function of them: the project
`Create`, the crawl (`CrawlOnly`), the text-analysis call (whose arguments do
not influence the modelled outcome), the image-analysis call, and the final
project `Update`. The two intermediate `Update` calls on the failure branches
have their errors ignored by the source, so their outcomes are not modelled. -/
structure ItemEnv where
  createProjectOk : Bool := true
  crawl : Except String CrawlResult := .error ""
  textAnalysis : Except String AnalysisResult := .error ""
  imageAnalysis : Except String ImageAnalysisResult := .error ""
  finalUpdateOk : Bool := true

/-- An atomic counter increment on the parent batch row
(`IncrementSuccessCount` / `IncrementFailedCount`). -/
inductive CounterOp where
  | incSuccess
  | incFailed
deriving DecidableEq

/-- What one `processSingleURL` invocation did: the counter increments it
issued in order, the final in-memory state of its project record (`none` when
the create failed), and whether the image-analysis call was made. -/
structure ItemOutput where
  ops : List CounterOp
  project : Option Project
  imageAnalysisAttempted : Bool
deriving DecidableEq

/-- Go `BatchHandler.processSingleURL`: create a draft record; crawl; serialize
the crawl result; run text analysis; conditionally run image analysis, a
failure of which is logged and swallowed; merge; persist; and increment
exactly one batch counter on the way out of every path. -/
def processSingleURL (env : ItemEnv) (settings : UserSettings) (url : String) : ItemOutput :=
  let project : Project := { sourceURL := url, sourceContent := .placeholder, status := "draft" }
  if env.createProjectOk then
    match env.crawl with
    | .error _ =>
      { ops := [.incFailed],
        project := some { project with status := "failed", sourceContent := .crawlFailed },
        imageAnalysisAttempted := false }
    | .ok result =>
      if result.success then
        let images := match result.content with
          | some c => c.images
          | none => []
        let project := match result.content with
          | some c => { project with sourceContent := .crawled c.title c.content c.images }
          | none => project
        match env.textAnalysis with
        | .error _ =>
          { ops := [.incFailed],
            project := some { project with status := "draft" },
            imageAnalysisAttempted := false }
        | .ok analysisResult =>
          let attempted := !images.isEmpty && settings.imageLLMApiKey != ""
          let imageAnalysisResult : Option ImageAnalysisResult :=
            if attempted then
              match env.imageAnalysis with
              | .ok r => some r
              | .error _ => none
            else none
          let merged : MergedAnalysis := { text := analysisResult, imageAnalysis := imageAnalysisResult }
          let project := { project with analysisResult := some merged, status := "analyzed" }
          if env.finalUpdateOk then
            { ops := [.incSuccess], project := some project, imageAnalysisAttempted := attempted }
          else
            { ops := [.incFailed], project := some project, imageAnalysisAttempted := attempted }
      else
        { ops := [.incFailed],
          project := some { project with status := "failed", sourceContent := .crawlFailed },
          imageAnalysisAttempted := false }
  else
    { ops := [.incFailed], project := none, imageAnalysisAttempted := false }

/-! ## Batch orchestration (processBatchTask, CreateBatchAnalyze) -/

/-- Go `model.BatchTask`, restricted to the counters and status. Counts are
naturals: the row is created with both counters zero and only ever
incremented. -/
structure BatchTask where
  totalCount : ℕ
  successCount : ℕ := 0
  failedCount : ℕ := 0
  status : String := "pending"
deriving DecidableEq

/-- One atomic counter increment applied to the persisted batch row
(`UpdateColumn` with `count + 1` runs increment-in-place in the store). -/
def applyOpTask (t : BatchTask) : CounterOp → BatchTask
  | .incSuccess => { t with successCount := t.successCount + 1 }
  | .incFailed => { t with failedCount := t.failedCount + 1 }

/-- The batch row as `CreateBatchAnalyze` creates it. -/
def initialBatchTask (total : ℕ) : BatchTask :=
  { totalCount := total, successCount := 0, failedCount := 0, status := "processing" }

/-- The batch row after a trace of counter increments has been applied to the
freshly created row. -/
def runBatchCounters (total : ℕ) (trace : List CounterOp) : BatchTask :=
  trace.foldl applyOpTask (initialBatchTask total)

/-- The finalization step of `processBatchTask` after the `WaitGroup` join:
status `failed` when every item failed, else `completed`. -/
def finalizeBatchTask (t : BatchTask) : BatchTask :=
  if t.failedCount = t.totalCount then { t with status := "failed" }
  else { t with status := "completed" }

/-- Every state of the persisted batch row observable during one run: the
created row, the row after each atomic increment of the interleaved trace
(increments never touch the status), and — when the post-join reload and the
status update both succeed — the row with the terminal status written. When
the reload or the update fails the source logs and returns, leaving the row
in its last pre-finalization state. -/
def batchTaskStates (total : ℕ) (trace : List CounterOp) (finalizeOk : Bool) : List BatchTask :=
  trace.scanl applyOpTask (initialBatchTask total) ++
    (if finalizeOk then [finalizeBatchTask (runBatchCounters total trace)] else [])

/-- The counter-increment trace of one batch item
(`processSingleURL`'s increments, in program order). -/
def itemOps (settings : UserSettings) (item : ItemEnv × String) : List CounterOp :=
  (processSingleURL item.1 settings item.2).ops

/-- One counter increment on a success/failure pair. -/
def applyOpPair (c : ℕ × ℕ) : CounterOp → ℕ × ℕ
  | .incSuccess => (c.1 + 1, c.2)
  | .incFailed => (c.1, c.2 + 1)

/-- Success/failure totals reached by folding a trace of increments over
zeroed counters. -/
def runCounters (ops : List CounterOp) : ℕ × ℕ :=
  ops.foldl applyOpPair (0, 0)

/-- The gin binding of `BatchAnalyzeRequest`: `urls` is required with
`min=1,max=10`, i.e. between 1 and 10 entries. -/
def bindBatchAnalyzeRequest (urls : List String) : Bool :=
  1 ≤ urls.length && urls.length ≤ 10

/-- The de-duplication loop of `CreateBatchAnalyze`: keep each non-empty URL
the first time it is seen (case-sensitive exact match), preserving order. -/
def dedupURLs (urls : List String) : List String :=
  urls.foldl (fun acc url => if url ≠ "" ∧ ¬ acc.contains url then acc ++ [url] else acc) []

/-- De-duplication as the specification words it: case-sensitive exact match,
first-seen order, and nothing else removed. Kept separate from `dedupURLs`
(the code's loop) to compare the two. -/
def dedupSpec (urls : List String) : List String :=
  urls.foldl (fun acc url => if ¬ acc.contains url then acc ++ [url] else acc) []

/-- Outcome of `CreateBatchAnalyze`, one constructor per exit of the handler:
the four rejection responses (401 missing login, 400 binding failure, 400
missing LLM key, 400 no valid links), the 500 create failure — none of which
create a task — and the success response carrying the created row and the
URL list handed to the asynchronous `processBatchTask`. -/
inductive BatchCreateResult where
  | unauthorized
  | bindError
  | missingLLMKey
  | noValidURLs
  | createFailed
  | created (task : BatchTask) (scheduledURLs : List String)
deriving DecidableEq

/-- Go `BatchHandler.CreateBatchAnalyze`: authenticate, bind (1–10 URLs), require
a configured text-LLM key, drop empty strings and de-duplicate, reject an
empty remainder, then create the batch row with `total_count` the number of
kept URLs and status `processing`. `settings` is the settings-repository
lookup result (`none` for a lookup error) and `createOk` the outcome of the
task-row insert. -/
def createBatchAnalyze (userID : Int) (urls : List String)
    (settings : Option UserSettings) (createOk : Bool) : BatchCreateResult :=
  if userID = 0 then .unauthorized
  else if ¬ bindBatchAnalyzeRequest urls then .bindError
  else
    match settings with
    | none => .missingLLMKey
    | some st =>
      if st.llmApiKey = "" then .missingLLMKey
      else
        let uniqueURLs := dedupURLs urls
        if uniqueURLs.length = 0 then .noValidURLs
        else if createOk then
          .created (initialBatchTask uniqueURLs.length) uniqueURLs
        else .createFailed

end Copycat

namespace Copycat

/-! ## Supporting lemmas -/

/-- Characters of the trimmed string are characters of the original. -/
theorem mem_strTrim {c : Char} {s : String} (h : c ∈ (strTrim s).toList) : c ∈ s.toList := by
  unfold strTrim at h
  have h1 : c ∈ (s.toList.dropWhile Char.isWhitespace).reverse.dropWhile Char.isWhitespace := by
    simpa using h
  have h2 : c ∈ (s.toList.dropWhile Char.isWhitespace).reverse :=
    (List.dropWhile_sublist _).subset h1
  have h3 : c ∈ s.toList.dropWhile Char.isWhitespace := List.mem_reverse.mp h2
  exact (List.dropWhile_sublist _).subset h3

/-- Characters surviving the unit-character removal are characters of the
original. -/
theorem mem_removeAllChar {c ch : Char} {s : String} (h : c ∈ (removeAllChar s ch).toList) :
    c ∈ s.toList :=
  (List.mem_filter.mp h).1

/-- The sign the scanner consumes is `1` unless the input starts with `'-'`. -/
theorem scanSign_fst_eq_one {cs : List Char} (h : cs.head? ≠ some '-') :
    (scanSign cs).1 = 1 := by
  unfold scanSign
  split
  · rfl
  · simp at h
  · rfl

/-- Folding an exponent in preserves nonnegativity of the numerator. -/
theorem applyExp_n_nonneg {q : ScanNum} (e : Int) (h : 0 ≤ q.n) : 0 ≤ (q.applyExp e).n := by
  unfold ScanNum.applyExp
  split
  · exact mul_nonneg h (by positivity)
  · exact h

/-- The exponent tail preserves nonnegativity of the numerator. -/
theorem scanExponent_n_nonneg {m : ScanNum} (r : List Char) (h : 0 ≤ m.n) :
    0 ≤ ((scanExponent m r).getD { n := 0, d := 1 }).n := by
  unfold scanExponent
  dsimp only
  split
  · exact le_refl 0
  · exact applyExp_n_nonneg _ h

/-- Unless the input starts with a minus sign, the scanned numerator is
nonnegative. -/
theorem goScanFloat_n_nonneg (s : String) (h : s.toList.head? ≠ some '-') :
    0 ≤ ((goScanFloat s).getD { n := 0, d := 1 }).n := by
  unfold goScanFloat
  dsimp only
  rw [scanSign_fst_eq_one h]
  have hbase : ∀ ds : List Char, (0 : Int) ≤ 1 * (digitsToNat ds : Int) := by
    intro ds
    simp
  split
  · exact le_refl 0
  · split
    · exact scanExponent_n_nonneg _ (hbase _)
    · exact scanExponent_n_nonneg _ (hbase _)
    · exact hbase _

end Copycat

namespace Copycat

/-- If a character is not in a list, it is not the head. -/
theorem head_ne_of_not_mem {c : Char} {l : List Char} (h : c ∉ l) : l.head? ≠ some c := by
  intro hh
  exact h (List.mem_of_mem_head? (by simp [hh]))

/-- Nonnegativity of one multiplier branch of `parseCount`. -/
theorem parseCount_branch_nonneg (u : String) (m : Int) (hm : 0 ≤ m)
    (hu : u.toList.head? ≠ some '-') :
    0 ≤ (((goScanFloat u).getD { n := 0, d := 1 }).n * m).tdiv
          (((goScanFloat u).getD { n := 0, d := 1 }).d : Int) :=
  Int.tdiv_nonneg (mul_nonneg (goScanFloat_n_nonneg u hu) hm) (by positivity)

/-- Claim C6 (amended): `parseCount` maps a count string to an integer by
trimming whitespace, multiplying by 10000 for a 万 suffix or 1000 for a 千
suffix (removing the suffix first), parsing the remainder as a float and
truncating; `"1.2万"` yields 12000, `"3千"` yields 3000, `"42"` yields 42,
`""` yields 0 and `"abc"` yields 0; the result is nonnegative for every
input without a minus sign (but not for all inputs). -/
theorem parseCount_unit_parsing :
    parseCount "1.2万" = 12000 ∧ parseCount "3千" = 3000 ∧ parseCount "42" = 42 ∧
    parseCount "" = 0 ∧ parseCount "abc" = 0 ∧
    ∀ s : String, '-' ∉ s.toList → 0 ≤ parseCount s := by
  refine ⟨by decide, by decide, by decide, by decide, by decide, ?_⟩
  intro s hs
  unfold parseCount
  dsimp only
  split
  · exact le_refl 0
  · split
    · exact parseCount_branch_nonneg _ _ (by norm_num)
        (head_ne_of_not_mem fun hmem => hs (mem_strTrim (mem_removeAllChar hmem)))
    · split
      · exact parseCount_branch_nonneg _ _ (by norm_num)
          (head_ne_of_not_mem fun hmem => hs (mem_strTrim (mem_removeAllChar hmem)))
      · exact parseCount_branch_nonneg _ _ (by norm_num)
          (head_ne_of_not_mem fun hmem => hs (mem_strTrim hmem))

/-- Witness for `parseCount_unit_parsing` at the concrete input `"7万"`. -/
theorem parseCount_unit_parsing_witness : (0 : Int) ≤ parseCount "7万" :=
  parseCount_unit_parsing.2.2.2.2.2 "7万" (by decide)

/-- Claim C6 (counterexample): `parseCount` is not nonnegative on all inputs —
a leading minus sign is accepted by the float parse, so `"-5"` maps to `-5`. -/
theorem parseCount_negative_counterexample :
    parseCount "-5" = -5 ∧ parseCount "-5" < 0 := by decide

/-- Claim C8: for every URL whose lower-cased form contains none of the known
platform domain substrings, the registry's `Crawl` returns a failure outcome
with platform unknown and reason "unsupported platform" locally, invoking no
crawler and hence performing no network call. -/
theorem crawl_unsupported_platform (url : String)
    (h1 : strContains (strToLower url) "xiaohongshu.com" = false)
    (h2 : strContains (strToLower url) "xhslink.com" = false)
    (h3 : strContains (strToLower url) "mp.weixin.qq.com" = false) :
    managerCrawl newCrawlerManagerRegistered url =
      .localResult { success := false, platform := .unknown, error := "unsupported platform" } := by
  have hdet : detectPlatform url = .unknown := by
    unfold detectPlatform
    dsimp only
    rw [h1, h2, h3]
    rfl
  unfold managerCrawl
  dsimp only
  rw [hdet]
  rfl

/-- Witness for `crawl_unsupported_platform` at a concrete URL. -/
theorem crawl_unsupported_platform_witness :
    strContains (strToLower "https://example.com/post/1") "xiaohongshu.com" = false ∧
    strContains (strToLower "https://example.com/post/1") "xhslink.com" = false ∧
    strContains (strToLower "https://example.com/post/1") "mp.weixin.qq.com" = false ∧
    managerCrawl newCrawlerManagerRegistered "https://example.com/post/1" =
      .localResult { success := false, platform := .unknown, error := "unsupported platform" } :=
  ⟨by decide, by decide, by decide,
    crawl_unsupported_platform "https://example.com/post/1" (by decide) (by decide) (by decide)⟩

/-- A URL whose lower-cased form contains both the wechat domain and a
xiaohongshu domain substring. -/
def mixedDomainsURL : String := "https://mp.weixin.qq.com/s?src=xiaohongshu.com"

/-- Claim C10 (counterexample): detection tests the xiaohongshu domains first,
so a URL containing `mp.weixin.qq.com` is not always classified as wechat —
with a xiaohongshu domain substring also present, detection yields
xiaohongshu and `Crawl` dispatches to the registered xiaohongshu crawler
(which does perform network traffic). -/
theorem wechat_detection_counterexample :
    strContains (strToLower mixedDomainsURL) "mp.weixin.qq.com" = true ∧
    detectPlatform mixedDomainsURL ≠ .wechat ∧
    managerCrawl newCrawlerManagerRegistered mixedDomainsURL = .dispatch .xiaohongshu :=
  ⟨by decide, by decide, by decide⟩

/-- Claim C10 (amended): for every URL whose lower-cased form contains
`mp.weixin.qq.com` and contains neither xiaohongshu domain substring,
detection classifies the URL as wechat, and since only the xiaohongshu
crawler is registered at construction, the registry's `Crawl` returns a
failure with reason "no crawler registered for platform: wechat" locally —
a different reason than "unsupported platform" — invoking no crawler and
hence making no network call. -/
theorem crawl_wechat_no_crawler (url : String)
    (h1 : strContains (strToLower url) "xiaohongshu.com" = false)
    (h2 : strContains (strToLower url) "xhslink.com" = false)
    (h3 : strContains (strToLower url) "mp.weixin.qq.com" = true) :
    detectPlatform url = .wechat ∧
    managerCrawl newCrawlerManagerRegistered url =
      .localResult { success := false, platform := .wechat,
                     error := "no crawler registered for platform: wechat" } := by
  have hdet : detectPlatform url = .wechat := by
    unfold detectPlatform
    dsimp only
    rw [h1, h2, h3]
    rfl
  refine ⟨hdet, ?_⟩
  unfold managerCrawl
  dsimp only
  rw [hdet]
  rfl

/-- Witness for `crawl_wechat_no_crawler` at a concrete URL. -/
theorem crawl_wechat_no_crawler_witness :
    strContains (strToLower "https://mp.weixin.qq.com/s/abc") "mp.weixin.qq.com" = true ∧
    detectPlatform "https://mp.weixin.qq.com/s/abc" = .wechat ∧
    managerCrawl newCrawlerManagerRegistered "https://mp.weixin.qq.com/s/abc" =
      .localResult { success := false, platform := .wechat,
                     error := "no crawler registered for platform: wechat" } :=
  ⟨by decide,
    (crawl_wechat_no_crawler "https://mp.weixin.qq.com/s/abc" (by decide) (by decide) (by decide)).1,
    (crawl_wechat_no_crawler "https://mp.weixin.qq.com/s/abc" (by decide) (by decide) (by decide)).2⟩

end Copycat

namespace Copycat

/-- The body after the metadata-tag strategy: the `og:description` capture
when present, the incoming body otherwise. -/
theorem extractFromHTML_content (html : Markup) (c : NoteContent) :
    (extractFromHTML html c).content =
      match html.ogDescription with
      | some d => d
      | none => c.content := by
  unfold extractFromHTML
  cases html.ogTitle <;> cases html.ogDescription <;> cases html.ogImage <;> rfl

/-- The title after the metadata-tag strategy: the `og:title` capture when
present, the incoming title otherwise. -/
theorem extractFromHTML_title (html : Markup) (c : NoteContent) :
    (extractFromHTML html c).title =
      match html.ogTitle with
      | some t => t
      | none => c.title := by
  unfold extractFromHTML
  cases html.ogTitle <;> cases html.ogDescription <;> cases html.ogImage <;> rfl

/-- Behaviour of the fallback tail of `parseContent`: it fails exactly when
title and body are both still empty after the metadata-tag strategy, and any
record it returns is the metadata-tag strategy's output over the incoming
record, with title or body non-empty. -/
theorem parseContentFallback_cases (html : Markup) (c : NoteContent) :
    (parseContentFallback html c = .error "failed to extract content from page" ↔
      (extractFromHTML html c).title = "" ∧ (extractFromHTML html c).content = "") ∧
    ∀ r, parseContentFallback html c = .ok r →
      r = extractFromHTML html c ∧ (r.title ≠ "" ∨ r.content ≠ "") := by
  unfold parseContentFallback
  dsimp only
  by_cases hcon : (extractFromHTML html c).content = ""
  · by_cases htit : (extractFromHTML html c).title = ""
    · simp [hcon, htit]
    · simp [hcon, htit]
  · simp [hcon]

end Copycat

namespace Copycat

/-- Claim C4: `parseContent` returns its (only) error exactly when, after both
strategies have run, title and body are both empty; consequently every record
returned on the success path has a non-empty title or a non-empty body. The
hypothesis records that real meta-tag captures are non-empty (the regex
captures with `[^"]+`). -/
theorem parseContent_error_iff_both_empty (html : Markup) (noteID sourceURL : String)
    (hwf : html.WellFormed) :
    (parseContent html noteID sourceURL = .error "failed to extract content from page" ↔
      (contentAfterBothStrategies html noteID sourceURL).title = "" ∧
      (contentAfterBothStrategies html noteID sourceURL).content = "") ∧
    ∀ c, parseContent html noteID sourceURL = .ok c → c.title ≠ "" ∨ c.content ≠ "" := by
  obtain ⟨hT, hD, hI⟩ := hwf
  unfold parseContent contentAfterBothStrategies
  cases hjson : extractFromJSON html (initialNoteContent noteID sourceURL) with
  | error e =>
    refine ⟨(parseContentFallback_cases html _).1, ?_⟩
    intro c hok
    exact ((parseContentFallback_cases html _).2 c hok).2
  | ok c1 =>
    dsimp only
    by_cases hc1 : c1.content = ""
    · rw [if_neg (by simp [hc1])]
      refine ⟨(parseContentFallback_cases html c1).1, ?_⟩
      intro c hok
      exact ((parseContentFallback_cases html c1).2 c hok).2
    · rw [if_pos hc1]
      constructor
      · simp only [reduceCtorEq, false_iff]
        rintro ⟨ht2, hcon2⟩
        rw [extractFromHTML_content] at hcon2
        cases hdesc : html.ogDescription with
        | none => rw [hdesc] at hcon2; exact hc1 hcon2
        | some d =>
          rw [hdesc] at hcon2
          dsimp at hcon2
          exact hD (by rw [hdesc, hcon2])
      · intro c hok
        rw [Except.ok.injEq] at hok
        subst hok
        exact Or.inr hc1

/-- Markup carrying only a description meta tag, for the C4 witness. -/
def descOnlyMarkup : Markup := { ogDescription := some "Meta description" }

/-- Witness for `parseContent_error_iff_both_empty`: at a concrete markup the
record returned on the success path has a non-empty title or body. -/
theorem parseContent_error_iff_both_empty_witness :
    ({ noteID := "n0", sourceURL := "u0", content := "Meta description",
       images := [], tags := [] } : NoteContent).title ≠ "" ∨
    ({ noteID := "n0", sourceURL := "u0", content := "Meta description",
       images := [], tags := [] } : NoteContent).content ≠ "" :=
  (parseContent_error_iff_both_empty descOnlyMarkup "n0" "u0" (by decide)).2 _ rfl

/-- Markup whose embedded state yields a title but no body, while metadata
tags are also present. -/
def embeddedTitleOnlyMarkup : Markup :=
  { initialState := some [("note", JValue.obj [("title", JValue.str "Embedded Title")])],
    ogTitle := some "Meta Title",
    ogDescription := some "Meta description",
    ogImage := some "https://img.example/cover.jpg" }

/-- Claim C3 (counterexample): on markup containing both an embedded-state
script and metadata tags, where the embedded-state strategy yields a title
("Embedded Title") but an empty body, the metadata-tag strategy still runs
and its values are merged into — indeed overwrite — the partially populated
record: the returned record carries the meta title, meta description and
meta image, not the embedded-state title. -/
theorem metadata_merge_counterexample :
    extractFromJSON embeddedTitleOnlyMarkup (initialNoteContent "n1" "u1") =
      .ok { initialNoteContent "n1" "u1" with title := "Embedded Title" } ∧
    parseContent embeddedTitleOnlyMarkup "n1" "u1" =
      .ok { noteID := "n1", sourceURL := "u1", title := "Meta Title",
            content := "Meta description",
            images := ["https://img.example/cover.jpg"], tags := [] } :=
  ⟨rfl, rfl⟩

/-- Claim C3 (amended): the metadata-tag strategy runs whenever the
embedded-state strategy yields an empty body — even when it yielded a title —
and it writes into the same record, so metadata-tag values are merged over
fields the embedded-state strategy populated; the embedded-state fields win,
with the metadata tags never consulted, exactly when the embedded-state
strategy produced a non-empty body. -/
theorem metadata_fallback_behaviour (html : Markup) (noteID sourceURL : String)
    (c1 : NoteContent)
    (hjson : extractFromJSON html (initialNoteContent noteID sourceURL) = .ok c1) :
    (c1.content ≠ "" → parseContent html noteID sourceURL = .ok c1) ∧
    (c1.content = "" → ∀ r, parseContent html noteID sourceURL = .ok r →
      r = extractFromHTML html c1) := by
  unfold parseContent
  rw [hjson]
  dsimp only
  constructor
  · intro hne
    rw [if_pos hne]
  · intro heq r hok
    rw [if_neg (by simp [heq])] at hok
    exact ((parseContentFallback_cases html c1).2 r hok).1

/-- Markup whose embedded state yields a non-empty body, with metadata tags
also present, for the C3 witness. -/
def embeddedBodyMarkup : Markup :=
  { initialState := some [("note", JValue.obj
      [("title", JValue.str "T1"), ("desc", JValue.str "Body text")])],
    ogTitle := some "Meta Title" }

/-- Witness for `metadata_fallback_behaviour`: with a non-empty
embedded-state body, the embedded-state record is returned untouched. -/
theorem metadata_fallback_behaviour_witness :
    parseContent embeddedBodyMarkup "n2" "u2" =
      .ok { noteID := "n2", sourceURL := "u2", title := "T1", content := "Body text",
            images := [], tags := [] } :=
  (metadata_fallback_behaviour embeddedBodyMarkup "n2" "u2"
    { noteID := "n2", sourceURL := "u2", title := "T1", content := "Body text",
      images := [], tags := [] } rfl).1 (by decide)

end Copycat

namespace Copycat

/-- Every path through the per-item pipeline issues exactly one counter
increment. -/
theorem processSingleURL_ops_length (env : ItemEnv) (settings : UserSettings) (url : String) :
    (processSingleURL env settings url).ops.length = 1 := by
  unfold processSingleURL
  repeat' split
  all_goals simp

/-- The success counter is incremented exactly on the full-success path:
project created, crawl succeeded, text analysis succeeded, final persist
succeeded. -/
theorem processSingleURL_ops_success_iff (env : ItemEnv) (settings : UserSettings) (url : String) :
    (processSingleURL env settings url).ops = [CounterOp.incSuccess] ↔
      env.createProjectOk = true ∧
      (∃ r, env.crawl = .ok r ∧ r.success = true) ∧
      (∃ a, env.textAnalysis = .ok a) ∧
      env.finalUpdateOk = true := by
  unfold processSingleURL
  repeat' split
  all_goals simp_all

end Copycat

namespace Copycat

/-- Claim C5: image analysis is attempted only when the crawl yielded a
non-empty image list and the image-LLM key is configured; and a failing
image-analysis call never fails the item — with every other step succeeding,
the item still persists the text-analysis result (without an image section),
is marked `analyzed`, and increments the success counter. -/
theorem image_analysis_isolation (env : ItemEnv) (settings : UserSettings) (url : String) :
    ((processSingleURL env settings url).imageAnalysisAttempted = true →
      settings.imageLLMApiKey ≠ "" ∧
      ∃ result c, env.crawl = .ok result ∧ result.content = some c ∧ c.images ≠ []) ∧
    (∀ result c analysisResult e,
      env.createProjectOk = true →
      env.crawl = .ok result →
      result.success = true →
      result.content = some c →
      c.images ≠ [] →
      settings.imageLLMApiKey ≠ "" →
      env.textAnalysis = .ok analysisResult →
      env.imageAnalysis = .error e →
      env.finalUpdateOk = true →
      processSingleURL env settings url =
        { ops := [.incSuccess],
          project := some { sourceURL := url,
                            sourceContent := .crawled c.title c.content c.images,
                            status := "analyzed",
                            analysisResult := some { text := analysisResult,
                                                     imageAnalysis := none } },
          imageAnalysisAttempted := true }) := by
  constructor
  · intro h
    unfold processSingleURL at h
    repeat' split at h
    all_goals simp_all
  · intro result c analysisResult e hcreate hcrawl hsuccess hcontent himages hkey htext himg hfinal
    unfold processSingleURL
    rw [hcrawl, htext, himg]
    simp [hcreate, hsuccess, hcontent, hfinal, himages, hkey]

end Copycat

namespace Copycat

/-- An item environment whose image-analysis call fails while everything else
succeeds. -/
def imageFailEnv : ItemEnv :=
  { createProjectOk := true,
    crawl := .ok { success := true, platform := .xiaohongshu,
                   content := some { title := "T", content := "C",
                                     images := ["https://img.example/1.jpg"] } },
    textAnalysis := .ok {},
    imageAnalysis := .error "image model unavailable",
    finalUpdateOk := true }

/-- Witness for `image_analysis_isolation` at a concrete environment. -/
theorem image_analysis_isolation_witness :
    processSingleURL imageFailEnv { imageLLMApiKey := "ik" } "https://u" =
      { ops := [.incSuccess],
        project := some { sourceURL := "https://u",
                          sourceContent := .crawled "T" "C" ["https://img.example/1.jpg"],
                          status := "analyzed",
                          analysisResult := some { text := {}, imageAnalysis := none } },
        imageAnalysisAttempted := true } :=
  (image_analysis_isolation imageFailEnv { imageLLMApiKey := "ik" } "https://u").2
    { success := true, platform := .xiaohongshu,
      content := some { title := "T", content := "C",
                        images := ["https://img.example/1.jpg"] } }
    { title := "T", content := "C", images := ["https://img.example/1.jpg"] }
    {} "image model unavailable"
    rfl rfl rfl rfl (by decide) (by decide) rfl rfl rfl

/-- Folding counter increments adds the trace length to the totals. -/
theorem foldl_applyOpPair_sum (ops : List CounterOp) (init : ℕ × ℕ) :
    (ops.foldl applyOpPair init).1 + (ops.foldl applyOpPair init).2 =
      init.1 + init.2 + ops.length := by
  induction ops generalizing init with
  | nil => simp
  | cons op rest ih =>
    cases op <;> simp [List.foldl_cons, applyOpPair, ih] <;> omega

/-- Success plus failure totals equal the number of increments applied. -/
theorem runCounters_sum (ops : List CounterOp) :
    (runCounters ops).1 + (runCounters ops).2 = ops.length := by
  simpa using foldl_applyOpPair_sum ops (0, 0)

/-- A batch over `items` issues exactly one increment per item. -/
theorem itemOps_join_length (settings : UserSettings) (items : List (ItemEnv × String)) :
    ((items.map (itemOps settings)).flatten).length = items.length := by
  induction items with
  | nil => rfl
  | cons item rest ih =>
    simp [itemOps, List.length_append, ih, processSingleURL_ops_length]
    omega

/-- Claim C1: each invocation of the per-item pipeline issues exactly one
counter increment — the success counter exactly on the full-success path, the
failure counter on every early-exit path — so along any interleaving of the
items' (atomic) increments, the final totals satisfy
`success + failed = N`, and at no point does `success + failed` exceed the
batch's item count. -/
theorem batch_counter_conservation (settings : UserSettings)
    (items : List (ItemEnv × String)) (trace : List CounterOp)
    (htrace : trace.Perm ((items.map (itemOps settings)).flatten)) :
    (∀ env url, (processSingleURL env settings url).ops.length = 1) ∧
    (∀ env url, (processSingleURL env settings url).ops = [CounterOp.incSuccess] ↔
      env.createProjectOk = true ∧
      (∃ r, env.crawl = .ok r ∧ r.success = true) ∧
      (∃ a, env.textAnalysis = .ok a) ∧
      env.finalUpdateOk = true) ∧
    (runCounters trace).1 + (runCounters trace).2 = items.length ∧
    ∀ p, p <+: trace → (runCounters p).1 + (runCounters p).2 ≤ items.length := by
  have hlen : trace.length = items.length := by
    rw [htrace.length_eq, itemOps_join_length]
  refine ⟨fun env url => processSingleURL_ops_length env settings url,
          fun env url => processSingleURL_ops_success_iff env settings url, ?_, ?_⟩
  · rw [runCounters_sum, hlen]
  · intro p hp
    rw [runCounters_sum]
    exact hlen ▸ hp.length_le

/-- One fully successful item environment for the batch witness. -/
def successEnv : ItemEnv :=
  { createProjectOk := true,
    crawl := .ok { success := true, platform := .xiaohongshu,
                   content := some { title := "t", content := "c", images := [] } },
    textAnalysis := .ok {},
    imageAnalysis := .error "unused",
    finalUpdateOk := true }

/-- One item environment failing at project creation for the batch witness. -/
def createFailEnv : ItemEnv := { createProjectOk := false }

/-- Witness for `batch_counter_conservation` over a concrete two-item batch. -/
theorem batch_counter_conservation_witness :
    (runCounters (([(successEnv, "uA"), (createFailEnv, "uB")].map (itemOps {})).flatten)).1 +
    (runCounters (([(successEnv, "uA"), (createFailEnv, "uB")].map (itemOps {})).flatten)).2 =
      2 :=
  (batch_counter_conservation {} [(successEnv, "uA"), (createFailEnv, "uB")]
    (([(successEnv, "uA"), (createFailEnv, "uB")].map (itemOps {})).flatten)
    (List.Perm.refl _)).2.2.1

end Copycat

namespace Copycat

/-- A counter increment never touches the status column. -/
theorem applyOpTask_status (t : BatchTask) (op : CounterOp) :
    (applyOpTask t op).status = t.status := by
  cases op <;> rfl

/-- A counter increment never touches the total count. -/
theorem applyOpTask_totalCount (t : BatchTask) (op : CounterOp) :
    (applyOpTask t op).totalCount = t.totalCount := by
  cases op <;> rfl

/-- Folding increments never touches the status column. -/
theorem foldl_applyOpTask_status (trace : List CounterOp) (t0 : BatchTask) :
    (trace.foldl applyOpTask t0).status = t0.status := by
  induction trace generalizing t0 with
  | nil => rfl
  | cons op rest ih => rw [List.foldl_cons, ih, applyOpTask_status]

/-- Folding increments never touches the total count. -/
theorem foldl_applyOpTask_totalCount (trace : List CounterOp) (t0 : BatchTask) :
    (trace.foldl applyOpTask t0).totalCount = t0.totalCount := by
  induction trace generalizing t0 with
  | nil => rfl
  | cons op rest ih => rw [List.foldl_cons, ih, applyOpTask_totalCount]

/-- Every state reached while increments are still being applied keeps the
status of the created row. -/
theorem mem_scanl_applyOpTask_status (trace : List CounterOp) (t0 : BatchTask) :
    ∀ t ∈ trace.scanl applyOpTask t0, t.status = t0.status := by
  induction trace generalizing t0 with
  | nil =>
    intro t ht
    simp only [List.scanl_nil, List.mem_singleton] at ht
    rw [ht]
  | cons op rest ih =>
    intro t ht
    rw [List.scanl_cons, List.singleton_append, List.mem_cons] at ht
    rcases ht with h | h
    · rw [h]
    · rw [ih (applyOpTask t0 op) t h, applyOpTask_status]

/-- Claim C2: the terminal status, computed after the join over the full
increment trace, is `failed` exactly when every item failed
(`failedCount = totalCount`) and `completed` otherwise; every state of the
batch row before finalization has status `processing`, and every observable
state is `processing`, `completed` or `failed` — so `processing` is the only
non-terminal status ever observable. -/
theorem batch_terminal_status (total : ℕ) (trace : List CounterOp) (finalizeOk : Bool) :
    ((finalizeBatchTask (runBatchCounters total trace)).status = "failed" ↔
      (runBatchCounters total trace).failedCount = total) ∧
    ((finalizeBatchTask (runBatchCounters total trace)).status = "completed" ↔
      (runBatchCounters total trace).failedCount ≠ total) ∧
    (∀ t ∈ trace.scanl applyOpTask (initialBatchTask total), t.status = "processing") ∧
    (∀ t ∈ batchTaskStates total trace finalizeOk,
      t.status = "processing" ∨ t.status = "completed" ∨ t.status = "failed") := by
  have htot : (runBatchCounters total trace).totalCount = total := by
    unfold runBatchCounters
    rw [foldl_applyOpTask_totalCount]
    rfl
  have hpre : ∀ t ∈ trace.scanl applyOpTask (initialBatchTask total), t.status = "processing" :=
    fun t ht => mem_scanl_applyOpTask_status trace (initialBatchTask total) t ht
  have hfin : (finalizeBatchTask (runBatchCounters total trace)).status = "failed" ∨
      (finalizeBatchTask (runBatchCounters total trace)).status = "completed" := by
    unfold finalizeBatchTask
    split
    · exact Or.inl rfl
    · exact Or.inr rfl
  refine ⟨?_, ?_, hpre, ?_⟩
  · unfold finalizeBatchTask
    rw [htot]
    split
    · simpa using by assumption
    · simpa using by assumption
  · unfold finalizeBatchTask
    rw [htot]
    split
    · simpa using by assumption
    · simpa using by assumption
  · intro t ht
    unfold batchTaskStates at ht
    rw [List.mem_append] at ht
    rcases ht with h | h
    · exact Or.inl (hpre t h)
    · rcases hfin with hf | hf
      · cases finalizeOk with
        | false => simp at h
        | true =>
          simp only [if_true, List.mem_singleton] at h
          rw [h]
          exact Or.inr (Or.inr hf)
      · cases finalizeOk with
        | false => simp at h
        | true =>
          simp only [if_true, List.mem_singleton] at h
          rw [h]
          exact Or.inr (Or.inl hf)

/-- Witness for `batch_terminal_status` on a one-item batch whose single item
failed: the pre-finalization row is `processing`, the finalized row is
`failed`. -/
theorem batch_terminal_status_witness :
    (initialBatchTask 1).status = "processing" ∧
    (finalizeBatchTask (runBatchCounters 1 [CounterOp.incFailed])).status = "failed" :=
  ⟨(batch_terminal_status 1 [CounterOp.incFailed] true).2.2.1 (initialBatchTask 1) (by decide),
   (batch_terminal_status 1 [CounterOp.incFailed] true).1.mpr (by decide)⟩

end Copycat

namespace Copycat

/-- The submission loop: its fold equals the plain first-seen de-duplication
of the list with empty strings removed. -/
theorem dedup_foldl_eq (l acc : List String) :
    l.foldl (fun acc url => if url ≠ "" ∧ ¬ acc.contains url then acc ++ [url] else acc) acc =
    (l.filter (fun u => u ≠ "")).foldl
      (fun acc url => if ¬ acc.contains url then acc ++ [url] else acc) acc := by
  induction l generalizing acc with
  | nil => rfl
  | cons u rest ih =>
    rw [List.foldl_cons, List.filter_cons]
    by_cases hu : u = ""
    · subst hu
      rw [if_neg (by simp), if_neg (by simp)]
      exact ih acc
    · have hfilter : decide (u ≠ "") = true := by simpa using hu
      rw [if_pos hfilter, List.foldl_cons]
      by_cases hmem : acc.contains u = true
      · rw [if_neg (fun h => h.2 hmem), if_neg (fun h => h hmem)]
        exact ih acc
      · rw [if_pos ⟨hu, hmem⟩, if_pos hmem]
        exact ih (acc ++ [u])

/-- The code's de-duplication is the specification's de-duplication applied
after dropping empty strings. -/
theorem dedupURLs_eq (urls : List String) :
    dedupURLs urls = dedupSpec (urls.filter (fun u => u ≠ "")) := by
  unfold dedupURLs dedupSpec
  exact dedup_foldl_eq urls []

/-- Claim C7 (counterexample): submission does not create the batch from the
plainly de-duplicated list — empty strings are dropped first. Submitting
`["", "a"]` with valid credentials creates a batch with `total_count = 1`,
although plain first-seen de-duplication keeps both entries. -/
theorem dedup_empty_string_counterexample :
    dedupSpec ["", "a"] = ["", "a"] ∧
    createBatchAnalyze 1 ["", "a"] (some { llmApiKey := "sk-test" }) true =
      .created (initialBatchTask 1) ["a"] ∧
    (initialBatchTask 1).totalCount ≠ (dedupSpec ["", "a"]).length := by
  refine ⟨by decide, by decide, by decide⟩

/-- Claim C7 (amended): submission drops empty strings, then de-duplicates by
case-sensitive exact match preserving first-seen order; it rejects the
request without creating any task when the resulting list is empty, and
otherwise creates the batch with `total_count` equal to the resulting
length, zeroed counters and status `processing` — in particular
`["a","a","b"]` yields `total_count = 2`. -/
theorem batch_submission_dedup (userID : Int) (urls : List String)
    (settings : Option UserSettings) (createOk : Bool) :
    dedupURLs urls = dedupSpec (urls.filter (fun u => u ≠ "")) ∧
    (dedupURLs urls = [] →
      ∀ t us, createBatchAnalyze userID urls settings createOk ≠ .created t us) ∧
    ∀ t us, createBatchAnalyze userID urls settings createOk = .created t us →
      t.totalCount = (dedupURLs urls).length ∧ t.status = "processing" ∧
      t.successCount = 0 ∧ t.failedCount = 0 ∧ us = dedupURLs urls := by
  refine ⟨dedupURLs_eq urls, ?_, ?_⟩
  · intro hnil t us h
    unfold createBatchAnalyze at h
    dsimp only at h
    repeat' split at h
    all_goals simp_all
  · intro t us h
    unfold createBatchAnalyze at h
    dsimp only at h
    repeat' split at h
    all_goals first
      | exact BatchCreateResult.noConfusion h
      | (injection h with h1 h2
         subst h1
         subst h2
         exact ⟨rfl, rfl, rfl, rfl, rfl⟩)

/-- Witness for `batch_submission_dedup`: submitting `["a","a","b"]` creates
a batch with `total_count = 2` over the de-duplicated URL list. -/
theorem batch_submission_dedup_witness :
    (initialBatchTask 2).totalCount = (dedupURLs ["a", "a", "b"]).length ∧
    (initialBatchTask 2).status = "processing" ∧
    (initialBatchTask 2).successCount = 0 ∧ (initialBatchTask 2).failedCount = 0 ∧
    ["a", "b"] = dedupURLs ["a", "a", "b"] :=
  (batch_submission_dedup 1 ["a", "a", "b"] (some { llmApiKey := "sk-test" }) true).2.2
    (initialBatchTask 2) ["a", "b"] (by decide)

/-- Claim C9: the request binding requires between 1 and 10 URLs, so an
authenticated submission with no URLs or with more than ten is rejected with
the bad-request binding error, before de-duplication or task creation. -/
theorem batch_request_binding_limit (userID : Int) (urls : List String)
    (settings : Option UserSettings) (createOk : Bool)
    (hauth : userID ≠ 0) (hsize : urls.length = 0 ∨ 10 < urls.length) :
    bindBatchAnalyzeRequest urls = false ∧
    createBatchAnalyze userID urls settings createOk = .bindError := by
  have hbind : bindBatchAnalyzeRequest urls = false := by
    unfold bindBatchAnalyzeRequest
    rcases hsize with h | h <;> simp [h]
  refine ⟨hbind, ?_⟩
  unfold createBatchAnalyze
  rw [if_neg hauth, if_pos (by simp [hbind])]

/-- Witness for `batch_request_binding_limit` with eleven URLs. -/
theorem batch_request_binding_limit_witness :
    bindBatchAnalyzeRequest ["1", "2", "3", "4", "5", "6", "7", "8", "9", "10", "11"] = false ∧
    createBatchAnalyze 1 ["1", "2", "3", "4", "5", "6", "7", "8", "9", "10", "11"]
      (some { llmApiKey := "sk-test" }) true = .bindError :=
  batch_request_binding_limit 1 ["1", "2", "3", "4", "5", "6", "7", "8", "9", "10", "11"]
    (some { llmApiKey := "sk-test" }) true (by decide) (by decide)

end Copycat
